import Mathlib

/-!
# Verification of `Common/nvrtc_helper.h`

A shallow embedding of the two free functions `compileFileToCUBIN` and
`loadCUBIN`.  All calls into the external NVRTC compiler library, the CUDA
driver library, and the helper headers (`helper_cuda_drvapi.h`,
`helper_string.h`, which are not among the sources of this repository) are
modelled by an environment `Env` of oracles: the result code and output data
of each external call is a field of `Env`.  Executing a function produces a trace of
externally visible events (library calls, console output, `free`) together
with an `Outcome`: either `exited msg` — the process terminated via `exit`
after printing the diagnostic `msg` — or `returned v`, a normal return with
value `v`.

The embedding follows the non-Windows (`#else`) branches of the source:
`snprintf(buf, size, ...)` writes at most `size - 1` characters.
-/

/-- Bytes of a C memory buffer (each entry one `char`, as an unsigned value). -/
abbrev Bytes := List Nat

/-- C `strlen`: number of bytes before the first null byte. -/
def cstrlen : Bytes → Nat
  | [] => 0
  | b :: bs => if b = 0 then 0 else cstrlen bs + 1

/-- Character count of a string (equals C `std::string::length` for the
ASCII strings this program builds). -/
def strLength (s : String) : Nat := s.toList.length

/-- First `n` characters of a string. -/
def strTake (s : String) (n : Nat) : String := (s.toList.take n).asString

/-- Model of C `snprintf` into a buffer of `bufSize` bytes, where the full formatted text
is `s`: at most `bufSize - 1` characters are written (the rest is truncated)
and the result is null-terminated. -/
def snprintfOut (bufSize : Nat) (s : String) : String := strTake s (bufSize - 1)

/-- Model of the C++ string find operation for a pattern: index of the first occurrence, `none`
when the pattern does not occur (`npos`). -/
def strFind (s pat : String) : Option Nat :=
  (List.range (s.toList.length + 1)).find? fun i => pat.toList.isPrefixOf (s.toList.drop i)

/-- The executable path `argv[0]` (first element of the argument list). -/
def argvZero (argv : List String) : String := argv.headD ""

/-- Value of `CU_DEVICE_ATTRIBUTE_COMPUTE_CAPABILITY_MAJOR`. -/
def ccMajorAttr : Nat := 75

/-- Value of `CU_DEVICE_ATTRIBUTE_COMPUTE_CAPABILITY_MINOR`. -/
def ccMinorAttr : Nat := 76

/-- Oracles for every external call the two functions make.  Result codes are
`0` for success (`NVRTC_SUCCESS` / `CUDA_SUCCESS`) and nonzero for failure. -/
structure Env where
  /-- Modelled from the spec: `findCudaDeviceDRV` (from `helper_cuda_drvapi.h`,
  not in the sources) "picks the best CUDA device available" as a function of
  the process argument list; the spec says the argument list is "used only for
  device selection". -/
  findCudaDeviceDRV : List String → Nat
  /-- Compute-capability major number of a device (`cuDeviceGetAttribute`). -/
  ccMajor : Nat → Nat
  /-- Compute-capability minor number of a device (`cuDeviceGetAttribute`). -/
  ccMinor : Nat → Nat
  /-- Result code of the `cuDeviceGetAttribute` call for the major number. -/
  attrMajorRes : Nat
  /-- Result code of the `cuDeviceGetAttribute` call for the minor number. -/
  attrMinorRes : Nat
  /-- Result code of `cuDeviceGetName`. -/
  getNameRes : Nat
  /-- Whether `std::ifstream` can open a given file. -/
  fileOpens : String → Bool
  /-- Byte contents of a file; `tellg` at end gives its length. -/
  fileBytes : String → Bytes
  /-- Modelled from the spec: `sdkFindFilePath` (from `helper_string.h`, not in
  the sources) searches for a file name starting from the executable path and
  returns the found path, or a null pointer. -/
  sdkFindFilePath : String → String → Option String
  /-- Model of `nvrtcGetErrorString`. -/
  nvrtcGetErrorString : Nat → String
  /-- Result code of `nvrtcCreateProgram`. -/
  createProgramRes : Nat
  /-- Result code of `nvrtcCompileProgram`. -/
  compileRes : Nat
  /-- Result code of `nvrtcGetProgramLogSize`. -/
  getLogSizeRes : Nat
  /-- Log size reported by `nvrtcGetProgramLogSize`. -/
  logSize : Nat
  /-- Result code of `nvrtcGetProgramLog`. -/
  getLogRes : Nat
  /-- Bytes `nvrtcGetProgramLog` writes into the log buffer. -/
  logBytes : Bytes
  /-- Result code of `nvrtcGetCUBINSize`. -/
  getCUBINSizeRes : Nat
  /-- Binary size reported by `nvrtcGetCUBINSize`. -/
  cubinSize : Nat
  /-- Result code of `nvrtcGetCUBIN`. -/
  getCUBINRes : Nat
  /-- Bytes `nvrtcGetCUBIN` writes into the binary buffer. -/
  cubinBytes : Bytes
  /-- Result code of `cuInit`. -/
  cuInitRes : Nat
  /-- Result code of `cuCtxCreate`. -/
  ctxCreateRes : Nat
  /-- Result code of `cuModuleLoadData`. -/
  moduleLoadRes : Nat
  /-- The `CUmodule` handle produced by `cuModuleLoadData`. -/
  moduleHandle : Nat

/-- Externally visible events, in program order. -/
inductive Event where
  /-- Call to `findCudaDeviceDRV` selecting device `dev`. -/
  | findDevice (dev : Nat)
  /-- Call to `cuDeviceGetAttribute` for attribute `attr` on device `dev`. -/
  | getAttribute (attr : Nat) (dev : Nat)
  /-- Call to `cuDeviceGetName` on device `dev`. -/
  | getDeviceName (dev : Nat)
  /-- Text written to standard output. -/
  | stdoutMsg (s : String)
  /-- Call to `nvrtcCreateProgram` with source buffer `src` and program name `name`. -/
  | nvrtcCreateProgram (src : Bytes) (name : String)
  /-- Call to `nvrtcCompileProgram` with `numOptions` options `options`. -/
  | nvrtcCompileProgram (numOptions : Nat) (options : List String)
  /-- Call to `nvrtcGetProgramLogSize`. -/
  | nvrtcGetProgramLogSize
  /-- Call to `nvrtcGetProgramLog`. -/
  | nvrtcGetProgramLog
  /-- The compilation log `log` written to standard error. -/
  | stderrLog (log : Bytes)
  /-- Call to `nvrtcGetCUBINSize`. -/
  | nvrtcGetCUBINSize
  /-- Call to `nvrtcGetCUBIN`. -/
  | nvrtcGetCUBIN
  /-- Call to `cuInit(0)`. -/
  | cuInit
  /-- Call to `cuCtxCreate` on device `dev`. -/
  | cuCtxCreate (dev : Nat)
  /-- Call to `cuModuleLoadData` on the binary image `image`. -/
  | cuModuleLoadData (image : Bytes)
  /-- Call to `free` on the binary buffer. -/
  | freeCubin
  deriving DecidableEq, Repr

/-- How a function invocation ends: process termination via `exit` after
printing diagnostic `msg`, or a normal return carrying a value. -/
inductive Outcome (α : Type) where
  /-- The process was terminated (`exit`) after printing `msg`. -/
  | exited (msg : String)
  /-- The function returned normally with value `a`. -/
  | returned (a : α)
  deriving DecidableEq, Repr

/-- The values `compileFileToCUBIN` stores through its output parameters
`cubinResult` / `cubinResultSize`. -/
structure CompileOutput where
  cubinResult : Bytes
  cubinResultSize : Nat
  deriving DecidableEq, Repr

/-- Diagnostic printed by the `NVRTC_SAFE_CALL` macro before `exit(1)`. -/
def nvrtcFailMsg (env : Env) (name : String) (res : Nat) : String :=
  "\nerror: " ++ name ++ " failed with error " ++ env.nvrtcGetErrorString res

/-- Modelled from the spec: the diagnostic `checkCudaErrors` (from
`helper_cuda_drvapi.h`, not in the sources) prints before terminating the
process on a failed driver call: "Every failure (missing file, compiler
error, driver error) is handled by printing a diagnostic and terminating the
process immediately". -/
def cudaFailMsg (res : Nat) : String :=
  "checkCudaErrors() Driver API error = " ++ Nat.repr res

/-- Lines 98-112: the always-present first compile option.
`compileOptions = "--gpu-architecture=sm_"` (22 characters) is formatted with
`"%s%d%d"` into a buffer of `compileOptions.size() + 10` bytes by `snprintf`,
so the text is truncated to 31 characters. -/
def archFlag (major minor : Nat) : String :=
  snprintfOut (strLength "--gpu-architecture=sm_" + 10)
    ("--gpu-architecture=sm_" ++ Nat.repr major ++ Nat.repr minor)

/-- Lines 116-153: the extra `--include-path=` option built when
`requiresCGheaders` is nonzero.  `argv0` is `argv[0]`.  Mirrors the source:
`sdkFindFilePath` looks up `cooperative_groups.h`; a null result or an empty
path terminates the process; otherwise the path is erased from the position
where the header name occurs (`path.erase(found)`), prepended with
`--include-path=`, and printed into a buffer with `snprintf` whose size
argument is `compileOptions.size()` — one byte short — so the final character
is dropped.  `std::string::erase` at `npos` (pattern not found) raises
`std::out_of_range`, which terminates the process. -/
def buildCGOption (env : Env) (argv0 : String) : Outcome String :=
  match env.sdkFindFilePath (snprintfOut 256 "cooperative_groups.h") argv0 with
  | none =>
      .exited ("\nerror: header file " ++ snprintfOut 256 "cooperative_groups.h"
        ++ " not found!\n")
  | some strPath =>
      if strPath = "" then
        .exited ("\nCooperativeGroups headers not found, please install it in "
          ++ argv0 ++ " sample directory..\n Exiting..\n")
      else
        match strFind strPath (snprintfOut 256 "cooperative_groups.h") with
        | none => .exited "terminate called after throwing an instance of std::out_of_range"
        | some found =>
            .returned (snprintfOut
              (strLength ("--include-path=" ++ strTake strPath found))
              ("--include-path=" ++ strTake strPath found))

/-- Lines 82-154: the list `compileParams` with `numCompileOptions` entries
handed to `nvrtcCompileProgram`: the architecture flag, then, when
`requiresCGheaders` is nonzero, the include-path option. -/
def buildCompileParams (env : Env) (argv : List String) (major minor : Nat)
    (requiresCGheaders : Nat) : Outcome (List String) :=
  if requiresCGheaders = 0 then
    .returned [archFlag major minor]
  else
    match buildCGOption env (argvZero argv) with
    | .exited m => .exited m
    | .returned p => .returned [archFlag major minor, p]

/-- The null-terminated log buffer after `nvrtcGetProgramLog`: `logSize` bytes
written by the library into a `malloc(logSize + 1)` buffer, then
`log[logSize] = 0`. -/
def logBuffer (env : Env) : Bytes := env.logBytes.take env.logSize ++ [0]

/-- Lines 57-196, `compileFileToCUBIN` (non-Windows branches).  Returns the
event trace and the outcome; `returned` carries what is stored through
`cubinResult` / `cubinResultSize`. -/
def compileFileToCUBIN (env : Env) (filename : Option String)
    (argv : List String) (requiresCGheaders : Nat) :
    List Event × Outcome CompileOutput :=
  match filename with
  | none => ([], .exited "\nerror: filename is empty for compileFileToCUBIN()!\n")
  | some fname =>
    if env.fileOpens fname = true then
      let memBlock : Bytes := env.fileBytes fname ++ [0]
      let dev : Nat := env.findCudaDeviceDRV argv
      if env.attrMajorRes = 0 then
        if env.attrMinorRes = 0 then
          let devTrace : List Event :=
            [.findDevice dev, .getAttribute ccMajorAttr dev, .getAttribute ccMinorAttr dev]
          match buildCompileParams env argv (env.ccMajor dev) (env.ccMinor dev)
              requiresCGheaders with
          | .exited m => (devTrace, .exited m)
          | .returned compileParams =>
            if env.createProgramRes = 0 then
              let preLog : List Event := devTrace ++
                [.nvrtcCreateProgram memBlock fname,
                 .nvrtcCompileProgram compileParams.length compileParams,
                 .nvrtcGetProgramLogSize]
              if env.getLogSizeRes = 0 then
                if env.getLogRes = 0 then
                  let logged : List Event := (preLog ++ [.nvrtcGetProgramLog]) ++
                    (if 2 ≤ cstrlen (logBuffer env) then [.stderrLog (logBuffer env)] else [])
                  if env.compileRes = 0 then
                    if env.getCUBINSizeRes = 0 then
                      if env.getCUBINRes = 0 then
                        (logged ++ [.nvrtcGetCUBINSize, .nvrtcGetCUBIN],
                         .returned ⟨env.cubinBytes.take env.cubinSize, env.cubinSize⟩)
                      else
                        (logged ++ [.nvrtcGetCUBINSize, .nvrtcGetCUBIN],
                         .exited (nvrtcFailMsg env "nvrtcGetCUBIN" env.getCUBINRes))
                    else
                      (logged ++ [.nvrtcGetCUBINSize],
                       .exited (nvrtcFailMsg env "nvrtcGetCUBINSize" env.getCUBINSizeRes))
                  else
                    (logged, .exited (nvrtcFailMsg env "nvrtcCompileProgram" env.compileRes))
                else
                  (preLog ++ [.nvrtcGetProgramLog],
                   .exited (nvrtcFailMsg env "nvrtcGetProgramLog" env.getLogRes))
              else
                (preLog, .exited (nvrtcFailMsg env "nvrtcGetProgramLogSize" env.getLogSizeRes))
            else
              (devTrace ++ [.nvrtcCreateProgram memBlock fname],
               .exited (nvrtcFailMsg env "nvrtcCreateProgram" env.createProgramRes))
        else
          ([.findDevice dev, .getAttribute ccMajorAttr dev, .getAttribute ccMinorAttr dev],
           .exited (cudaFailMsg env.attrMinorRes))
      else
        ([.findDevice dev, .getAttribute ccMajorAttr dev],
         .exited (cudaFailMsg env.attrMajorRes))
    else
      ([], .exited ("\nerror: unable to open " ++ fname ++ " for reading!\n"))

/-- Lines 203-230, `loadCUBIN`.  Returns the event trace and the outcome;
`returned` carries the `CUmodule` handle. -/
def loadCUBIN (env : Env) (cubin : Bytes) (argv : List String) :
    List Event × Outcome Nat :=
  let dev : Nat := env.findCudaDeviceDRV argv
  if env.attrMajorRes = 0 then
    if env.attrMinorRes = 0 then
      if env.getNameRes = 0 then
        let preInit : List Event :=
          [.findDevice dev, .getAttribute ccMajorAttr dev, .getAttribute ccMinorAttr dev,
           .getDeviceName dev,
           .stdoutMsg ("> GPU Device has SM " ++ Nat.repr (env.ccMajor dev) ++ "."
             ++ Nat.repr (env.ccMinor dev) ++ " compute capability\n")]
        if env.cuInitRes = 0 then
          if env.ctxCreateRes = 0 then
            if env.moduleLoadRes = 0 then
              (preInit ++ [.cuInit, .cuCtxCreate dev, .cuModuleLoadData cubin, .freeCubin],
               .returned env.moduleHandle)
            else
              (preInit ++ [.cuInit, .cuCtxCreate dev, .cuModuleLoadData cubin],
               .exited (cudaFailMsg env.moduleLoadRes))
          else
            (preInit ++ [.cuInit, .cuCtxCreate dev], .exited (cudaFailMsg env.ctxCreateRes))
        else
          (preInit ++ [.cuInit], .exited (cudaFailMsg env.cuInitRes))
      else
        ([.findDevice dev, .getAttribute ccMajorAttr dev, .getAttribute ccMinorAttr dev,
          .getDeviceName dev], .exited (cudaFailMsg env.getNameRes))
    else
      ([.findDevice dev, .getAttribute ccMajorAttr dev, .getAttribute ccMinorAttr dev],
       .exited (cudaFailMsg env.attrMinorRes))
  else
    ([.findDevice dev, .getAttribute ccMajorAttr dev], .exited (cudaFailMsg env.attrMajorRes))

/-- A concrete all-successful environment used to instantiate theorems. -/
def env0 : Env where
  findCudaDeviceDRV := fun _ => 0
  ccMajor := fun _ => 8
  ccMinor := fun _ => 6
  attrMajorRes := 0
  attrMinorRes := 0
  getNameRes := 0
  fileOpens := fun _ => true
  fileBytes := fun _ => [107, 10]
  sdkFindFilePath := fun hdr _ => some ("inc/" ++ hdr)
  nvrtcGetErrorString := fun _ => "NVRTC_ERROR"
  createProgramRes := 0
  compileRes := 0
  getLogSizeRes := 0
  logSize := 5
  getLogRes := 0
  logBytes := [104, 105, 33, 10, 0]
  getCUBINSizeRes := 0
  cubinSize := 3
  getCUBINRes := 0
  cubinBytes := [1, 2, 3]
  cuInitRes := 0
  ctxCreateRes := 0
  moduleLoadRes := 0
  moduleHandle := 42

/-- All result codes that `compileFileToCUBIN` checks (via `checkCudaErrors`
and `NVRTC_SAFE_CALL`) report success. -/
def compileChecksOk (env : Env) : Prop :=
  env.attrMajorRes = 0 ∧ env.attrMinorRes = 0 ∧ env.createProgramRes = 0 ∧
  env.getLogSizeRes = 0 ∧ env.getLogRes = 0 ∧ env.compileRes = 0 ∧
  env.getCUBINSizeRes = 0 ∧ env.getCUBINRes = 0

/-- All result codes that `loadCUBIN` checks (via `checkCudaErrors`) report
success. -/
def loadChecksOk (env : Env) : Prop :=
  env.attrMajorRes = 0 ∧ env.attrMinorRes = 0 ∧ env.getNameRes = 0 ∧
  env.cuInitRes = 0 ∧ env.ctxCreateRes = 0 ∧ env.moduleLoadRes = 0

/-- The complete event trace of a fully successful `compileFileToCUBIN` run
whose compile options are `ps`; the trace of every run is a prefix of this
list. -/
def fullCompileTrace (env : Env) (fname : String) (argv : List String)
    (ps : List String) : List Event :=
  [.findDevice (env.findCudaDeviceDRV argv),
   .getAttribute ccMajorAttr (env.findCudaDeviceDRV argv),
   .getAttribute ccMinorAttr (env.findCudaDeviceDRV argv),
   .nvrtcCreateProgram (env.fileBytes fname ++ [0]) fname,
   .nvrtcCompileProgram ps.length ps,
   .nvrtcGetProgramLogSize, .nvrtcGetProgramLog] ++
  (if 2 ≤ cstrlen (logBuffer env) then [.stderrLog (logBuffer env)] else []) ++
  [.nvrtcGetCUBINSize, .nvrtcGetCUBIN]

/-- Whether an event is a call into the NVRTC compiler library. -/
def isNvrtcCall : Event → Bool
  | .nvrtcCreateProgram _ _ => true
  | .nvrtcCompileProgram _ _ => true
  | .nvrtcGetProgramLogSize => true
  | .nvrtcGetProgramLog => true
  | .nvrtcGetCUBINSize => true
  | .nvrtcGetCUBIN => true
  | _ => false

/-- The compiler-library calls of a trace, in order. -/
def nvrtcCallEvents (t : List Event) : List Event := t.filter isNvrtcCall

/-- The full compiler-library call sequence: create program, compile, log
size, log contents, binary size, binary contents. -/
def fullNvrtcSeq (env : Env) (fname : String) (opts : List String) : List Event :=
  [.nvrtcCreateProgram (env.fileBytes fname ++ [0]) fname,
   .nvrtcCompileProgram opts.length opts,
   .nvrtcGetProgramLogSize, .nvrtcGetProgramLog,
   .nvrtcGetCUBINSize, .nvrtcGetCUBIN]

/-- The path returned by `sdkFindFilePath` (when there is one) does not start
with the header name itself, i.e. it carries a nonempty directory prefix —
true of the real `sdkFindFilePath`, whose search paths all end in `/`. -/
def cgPathOk (o : Option String) : Bool :=
  match o with
  | none => true
  | some p => decide (strFind p "cooperative_groups.h" ≠ some 0)

/-- The complete event trace of a successful `loadCUBIN` run. -/
def loadSuccessTrace (env : Env) (cubin : Bytes) (argv : List String) : List Event :=
  [.findDevice (env.findCudaDeviceDRV argv),
   .getAttribute ccMajorAttr (env.findCudaDeviceDRV argv),
   .getAttribute ccMinorAttr (env.findCudaDeviceDRV argv),
   .getDeviceName (env.findCudaDeviceDRV argv),
   .stdoutMsg ("> GPU Device has SM "
     ++ Nat.repr (env.ccMajor (env.findCudaDeviceDRV argv)) ++ "."
     ++ Nat.repr (env.ccMinor (env.findCudaDeviceDRV argv)) ++ " compute capability\n"),
   .cuInit, .cuCtxCreate (env.findCudaDeviceDRV argv),
   .cuModuleLoadData cubin, .freeCubin]

/-- An environment whose `sdkFindFilePath` oracle depends on the executable
path it is given (as the real one does: it searches relative to `argv[0]`). -/
def envArgvDep : Env :=
  { env0 with sdkFindFilePath := fun hdr a0 => some (a0 ++ "/" ++ hdr) }

/-- An environment where compilation itself fails. -/
def envLogFail : Env := { env0 with compileRes := 5 }

/-- An environment where `nvrtcCompileProgram` reports failure. -/
def envCompileFail : Env := { env0 with compileRes := 6 }

/-- An environment where `nvrtcCreateProgram` reports failure. -/
def envCreateFail : Env := { env0 with createProgramRes := 1 }

/-! ## Helper lemmas about strings -/

theorem toList_append (s t : String) : (s ++ t).toList = s.toList ++ t.toList := rfl

theorem asString_append (l₁ l₂ : List Char) :
    (l₁ ++ l₂).asString = l₁.asString ++ l₂.asString := rfl

theorem asString_toList (s : String) : s.toList.asString = s := rfl

theorem toList_eq_nil_iff (s : String) : s.toList = [] ↔ s = "" := by
  cases s with
  | mk d => simp [String.toList, String.ext_iff]

theorem append_ne_empty_left (s t : String) (h : s ≠ "") : s ++ t ≠ "" := by
  intro hc
  apply h
  have hl : (s ++ t).toList = [] := by rw [hc]; rfl
  rw [toList_append] at hl
  rcases List.append_eq_nil.mp hl with ⟨h1, _⟩
  exact (toList_eq_nil_iff s).mp h1

theorem strTake_eq_self (s : String) (n : Nat) (h : s.toList.length ≤ n) :
    strTake s n = s := by
  unfold strTake
  rw [List.take_of_length_le h, asString_toList]

theorem strLength_append (s t : String) :
    strLength (s ++ t) = strLength s + strLength t := by
  simp [strLength, toList_append]

theorem nvrtcFailMsg_ne_empty (env : Env) (name : String) (res : Nat) :
    nvrtcFailMsg env name res ≠ "" := by
  unfold nvrtcFailMsg
  apply append_ne_empty_left
  apply append_ne_empty_left
  apply append_ne_empty_left
  decide

theorem cudaFailMsg_ne_empty (res : Nat) : cudaFailMsg res ≠ "" := by
  unfold cudaFailMsg
  apply append_ne_empty_left
  decide

/-! ## Trace structure of `compileFileToCUBIN` -/

/-- Master lemma: the trace of any `compileFileToCUBIN` run is a prefix of
`fullCompileTrace` for some option list `ps`; when the compile call appears
in the trace, `ps` is exactly what `buildCompileParams` produced; and a
normal return means the whole of `fullCompileTrace` was executed. -/
theorem compile_trace_structure (env : Env) (fname : String) (argv : List String)
    (flag : Nat) :
    ∃ ps rest,
      (compileFileToCUBIN env (some fname) argv flag).1 ++ rest =
        fullCompileTrace env fname argv ps ∧
      (Event.nvrtcCompileProgram ps.length ps ∈
          (compileFileToCUBIN env (some fname) argv flag).1 →
        buildCompileParams env argv (env.ccMajor (env.findCudaDeviceDRV argv))
          (env.ccMinor (env.findCudaDeviceDRV argv)) flag = .returned ps) ∧
      (∀ out, (compileFileToCUBIN env (some fname) argv flag).2 = .returned out →
        rest = []) := by
  by_cases h1 : env.fileOpens fname = true
  · by_cases h2 : env.attrMajorRes = 0
    · by_cases h3 : env.attrMinorRes = 0
      · rcases hp : buildCompileParams env argv
            (env.ccMajor (env.findCudaDeviceDRV argv))
            (env.ccMinor (env.findCudaDeviceDRV argv)) flag with m | ps
        · refine ⟨[], [.nvrtcCreateProgram (env.fileBytes fname ++ [0]) fname,
              .nvrtcCompileProgram 0 [], .nvrtcGetProgramLogSize, .nvrtcGetProgramLog] ++
              (if 2 ≤ cstrlen (logBuffer env) then [.stderrLog (logBuffer env)] else []) ++
              [.nvrtcGetCUBINSize, .nvrtcGetCUBIN], ?_, ?_, ?_⟩ <;>
            simp [compileFileToCUBIN, fullCompileTrace, h1, h2, h3, hp]
        · by_cases h4 : env.createProgramRes = 0
          · by_cases h5 : env.getLogSizeRes = 0
            · by_cases h6 : env.getLogRes = 0
              · by_cases h7 : env.compileRes = 0
                · by_cases h8 : env.getCUBINSizeRes = 0
                  · by_cases h9 : env.getCUBINRes = 0
                    · refine ⟨ps, [], ?_, fun _ => rfl, fun _ _ => rfl⟩
                      simp [compileFileToCUBIN, fullCompileTrace, h1, h2, h3, hp,
                        h4, h5, h6, h7, h8, h9]
                    · refine ⟨ps, [], ?_, fun _ => rfl, ?_⟩ <;>
                        simp [compileFileToCUBIN, fullCompileTrace, h1, h2, h3, hp,
                          h4, h5, h6, h7, h8, h9]
                  · refine ⟨ps, [.nvrtcGetCUBIN], ?_, fun _ => rfl, ?_⟩ <;>
                      simp [compileFileToCUBIN, fullCompileTrace, h1, h2, h3, hp,
                        h4, h5, h6, h7, h8]
                · refine ⟨ps, [.nvrtcGetCUBINSize, .nvrtcGetCUBIN], ?_, fun _ => rfl, ?_⟩ <;>
                    simp [compileFileToCUBIN, fullCompileTrace, h1, h2, h3, hp,
                      h4, h5, h6, h7]
              · refine ⟨ps,
                  (if 2 ≤ cstrlen (logBuffer env) then [.stderrLog (logBuffer env)] else []) ++
                  [.nvrtcGetCUBINSize, .nvrtcGetCUBIN], ?_, fun _ => rfl, ?_⟩ <;>
                  simp [compileFileToCUBIN, fullCompileTrace, h1, h2, h3, hp, h4, h5, h6]
            · refine ⟨ps, [Event.nvrtcGetProgramLog] ++
                (if 2 ≤ cstrlen (logBuffer env) then [.stderrLog (logBuffer env)] else []) ++
                [.nvrtcGetCUBINSize, .nvrtcGetCUBIN], ?_, fun _ => rfl, ?_⟩ <;>
                simp [compileFileToCUBIN, fullCompileTrace, h1, h2, h3, hp, h4, h5]
          · refine ⟨ps, [Event.nvrtcCompileProgram ps.length ps,
              .nvrtcGetProgramLogSize, .nvrtcGetProgramLog] ++
              (if 2 ≤ cstrlen (logBuffer env) then [.stderrLog (logBuffer env)] else []) ++
              [.nvrtcGetCUBINSize, .nvrtcGetCUBIN], ?_, fun _ => rfl, ?_⟩ <;>
              simp [compileFileToCUBIN, fullCompileTrace, h1, h2, h3, hp, h4]
      · refine ⟨[], [.nvrtcCreateProgram (env.fileBytes fname ++ [0]) fname,
          .nvrtcCompileProgram 0 [], .nvrtcGetProgramLogSize, .nvrtcGetProgramLog] ++
          (if 2 ≤ cstrlen (logBuffer env) then [.stderrLog (logBuffer env)] else []) ++
          [.nvrtcGetCUBINSize, .nvrtcGetCUBIN], ?_, ?_, ?_⟩ <;>
          simp [compileFileToCUBIN, fullCompileTrace, h1, h2, h3]
    · refine ⟨[], [.getAttribute ccMinorAttr (env.findCudaDeviceDRV argv),
        .nvrtcCreateProgram (env.fileBytes fname ++ [0]) fname,
        .nvrtcCompileProgram 0 [], .nvrtcGetProgramLogSize, .nvrtcGetProgramLog] ++
        (if 2 ≤ cstrlen (logBuffer env) then [.stderrLog (logBuffer env)] else []) ++
        [.nvrtcGetCUBINSize, .nvrtcGetCUBIN], ?_, ?_, ?_⟩ <;>
        simp [compileFileToCUBIN, fullCompileTrace, h1, h2]
  · exact ⟨[], fullCompileTrace env fname argv [], by
      simp [compileFileToCUBIN, h1], by simp [compileFileToCUBIN, h1], by
      simp [compileFileToCUBIN, h1]⟩

/-! ## Inversion lemmas for the option builders -/

theorem buildCompileParams_inv (env : Env) (argv : List String)
    (major minor flag : Nat) (ps : List String)
    (h : buildCompileParams env argv major minor flag = .returned ps) :
    (flag = 0 ∧ ps = [archFlag major minor]) ∨
    (flag ≠ 0 ∧ ∃ p, buildCGOption env (argvZero argv) = .returned p ∧
      ps = [archFlag major minor, p]) := by
  unfold buildCompileParams at h
  by_cases hf : flag = 0
  · rw [if_pos hf] at h
    cases h
    exact Or.inl ⟨hf, rfl⟩
  · rw [if_neg hf] at h
    rcases hg : buildCGOption env (argvZero argv) with m | p
    · simp [hg] at h
    · simp only [hg] at h
      cases h
      exact Or.inr ⟨hf, p, rfl, rfl⟩

theorem buildCGOption_inv (env : Env) (a0 p : String)
    (h : buildCGOption env a0 = .returned p) :
    ∃ path found, env.sdkFindFilePath "cooperative_groups.h" a0 = some path ∧
      path ≠ "" ∧ strFind path "cooperative_groups.h" = some found ∧
      p = snprintfOut (strLength ("--include-path=" ++ strTake path found))
            ("--include-path=" ++ strTake path found) := by
  have hh : snprintfOut 256 "cooperative_groups.h" = "cooperative_groups.h" := by decide
  unfold buildCGOption at h
  rw [hh] at h
  rcases hsp : env.sdkFindFilePath "cooperative_groups.h" a0 with _ | path
  · simp [hsp] at h
  · simp only [hsp] at h
    by_cases he : path = ""
    · rw [if_pos he] at h
      simp at h
    · rw [if_neg he] at h
      rcases hf : strFind path "cooperative_groups.h" with _ | found
      · simp [hf] at h
      · simp only [hf] at h
        cases h
        exact ⟨path, found, rfl, he, hf, rfl⟩

theorem repr_length_le_two : ∀ m : Nat, m ≤ 99 → (Nat.repr m).toList.length ≤ 2 := by
  decide

theorem archFlag_eq (major minor : Nat) (hmaj : major ≤ 99) (hmin : minor ≤ 99) :
    archFlag major minor =
      "--gpu-architecture=sm_" ++ Nat.repr major ++ Nat.repr minor := by
  unfold archFlag snprintfOut
  apply strTake_eq_self
  rw [toList_append, toList_append]
  simp only [List.length_append]
  have h1 := repr_length_le_two major hmaj
  have h2 := repr_length_le_two minor hmin
  have h3 : ("--gpu-architecture=sm_".toList).length = 22 := by decide
  have h4 : strLength "--gpu-architecture=sm_" = 22 := by decide
  omega

/-! ## Claim theorems -/

/-- Helper: inversion of a normal return of `compileFileToCUBIN`. -/
theorem compile_returned_inv (env : Env) (filename : Option String)
    (argv : List String) (flag : Nat) (out : CompileOutput)
    (h : (compileFileToCUBIN env filename argv flag).2 = .returned out) :
    (∃ fname, filename = some fname ∧ env.fileOpens fname = true) ∧
    compileChecksOk env ∧
    out = ⟨env.cubinBytes.take env.cubinSize, env.cubinSize⟩ := by
  cases filename with
  | none => simp [compileFileToCUBIN] at h
  | some fname =>
    by_cases h1 : env.fileOpens fname = true
    · by_cases h2 : env.attrMajorRes = 0
      · by_cases h3 : env.attrMinorRes = 0
        · rcases hp : buildCompileParams env argv
              (env.ccMajor (env.findCudaDeviceDRV argv))
              (env.ccMinor (env.findCudaDeviceDRV argv)) flag with m | ps
          · simp [compileFileToCUBIN, h1, h2, h3, hp] at h
          · by_cases h4 : env.createProgramRes = 0
            · by_cases h5 : env.getLogSizeRes = 0
              · by_cases h6 : env.getLogRes = 0
                · by_cases h7 : env.compileRes = 0
                  · by_cases h8 : env.getCUBINSizeRes = 0
                    · by_cases h9 : env.getCUBINRes = 0
                      · simp only [compileFileToCUBIN, h1, h2, h3, hp, h4, h5, h6,
                          h7, h8, h9, if_true, if_pos] at h
                        refine ⟨⟨fname, rfl, h1⟩,
                          ⟨h2, h3, h4, h5, h6, h7, h8, h9⟩, ?_⟩
                        simp at h
                        exact h.symm
                      · simp [compileFileToCUBIN, h1, h2, h3, hp, h4, h5, h6, h7,
                          h8, h9] at h
                    · simp [compileFileToCUBIN, h1, h2, h3, hp, h4, h5, h6, h7,
                        h8] at h
                  · simp [compileFileToCUBIN, h1, h2, h3, hp, h4, h5, h6, h7] at h
                · simp [compileFileToCUBIN, h1, h2, h3, hp, h4, h5, h6] at h
              · simp [compileFileToCUBIN, h1, h2, h3, hp, h4, h5] at h
            · simp [compileFileToCUBIN, h1, h2, h3, hp, h4] at h
        · simp [compileFileToCUBIN, h1, h2, h3] at h
      · simp [compileFileToCUBIN, h1, h2] at h
    · simp [compileFileToCUBIN, h1] at h

/-- Claim C2: `compileFileToCUBIN` writes through its output parameters
`cubinResult` and `cubinResultSize` only after every compilation step has
succeeded; on any failure the process terminates before either output is
assigned, so whenever the function returns normally the caller holds a binary
produced by a successful compile: a normal return implies the file opened,
every checked library call (program creation, compilation, binary-size query,
binary fetch) succeeded, and the outputs are exactly the fetched binary and
its size. -/
theorem outputs_written_only_after_success (env : Env) (filename : Option String)
    (argv : List String) (flag : Nat) (out : CompileOutput)
    (h : (compileFileToCUBIN env filename argv flag).2 = .returned out) :
    (∃ fname, filename = some fname ∧ env.fileOpens fname = true) ∧
    compileChecksOk env ∧
    out = ⟨env.cubinBytes.take env.cubinSize, env.cubinSize⟩ :=
  compile_returned_inv env filename argv flag out h

/-- Witness for claim C2 at a concrete successful environment. -/
theorem outputs_written_only_after_success_witness :
    compileChecksOk env0 ∧
    (⟨[1, 2, 3], 3⟩ : CompileOutput) =
      ⟨env0.cubinBytes.take env0.cubinSize, env0.cubinSize⟩ := by
  have h := outputs_written_only_after_success env0 (some "f.cu") ["app"] 0
    ⟨[1, 2, 3], 3⟩ (by decide)
  exact ⟨h.2.1, h.2.2⟩

/-- Claim C9: the source text `compileFileToCUBIN` hands to `nvrtcCreateProgram`
is exactly the entire byte contents of the input file followed by a single
appended null terminator, and the program name is the input filename. -/
theorem create_program_source_bytes (env : Env) (fname : String)
    (argv : List String) (flag : Nat) (src : Bytes) (nm : String)
    (hmem : Event.nvrtcCreateProgram src nm ∈
      (compileFileToCUBIN env (some fname) argv flag).1) :
    src = env.fileBytes fname ++ [0] ∧ nm = fname := by
  obtain ⟨ps, rest, hA, -, -⟩ := compile_trace_structure env fname argv flag
  have hfull : Event.nvrtcCreateProgram src nm ∈ fullCompileTrace env fname argv ps := by
    rw [← hA]
    exact List.mem_append_left rest hmem
  by_cases hpr : 2 ≤ cstrlen (logBuffer env) <;>
    simp [fullCompileTrace, hpr] at hfull <;>
    exact ⟨hfull.1, hfull.2⟩

/-- Witness for claim C9 at a concrete environment. -/
theorem create_program_source_bytes_witness :
    ([107, 10, 0] : Bytes) = env0.fileBytes "f.cu" ++ [0] := by
  have h := create_program_source_bytes env0 "f.cu" ["app"] 0 [107, 10, 0] "f.cu"
    (by decide)
  exact h.1

/-- Claim C5: `compileFileToCUBIN` invokes the compiler library in exactly the
order create program, compile, fetch log size, fetch log, fetch binary size,
fetch binary: the compiler-library calls of any trace form a prefix of that
six-call sequence (so no compiler-library call occurs outside it), the whole
sequence is executed when the function returns normally, and a null filename
produces no compiler-library call at all. -/
theorem nvrtc_calls_in_fixed_order (env : Env) (fname : String)
    (argv : List String) (flag : Nat) :
    (∃ opts rest,
      nvrtcCallEvents (compileFileToCUBIN env (some fname) argv flag).1 ++ rest =
        fullNvrtcSeq env fname opts ∧
      (∀ out, (compileFileToCUBIN env (some fname) argv flag).2 = .returned out →
        rest = [])) ∧
    nvrtcCallEvents (compileFileToCUBIN env none argv flag).1 = [] := by
  constructor
  · obtain ⟨ps, rest, hA, -, hret⟩ := compile_trace_structure env fname argv flag
    refine ⟨ps, nvrtcCallEvents rest, ?_, ?_⟩
    · show (compileFileToCUBIN env (some fname) argv flag).1.filter isNvrtcCall ++
        rest.filter isNvrtcCall = fullNvrtcSeq env fname ps
      rw [← List.filter_append, hA]
      by_cases hpr : 2 ≤ cstrlen (logBuffer env) <;>
        simp [fullCompileTrace, fullNvrtcSeq, isNvrtcCall, hpr]
    · intro out hout
      rw [hret out hout]
      rfl
  · simp [compileFileToCUBIN, nvrtcCallEvents]

/-- Witness for claim C5: at a concrete successful environment the inner
hypothesis (a normal return) is discharged, giving the full six-call
sequence. -/
theorem nvrtc_calls_in_fixed_order_witness :
    ∃ opts rest,
      nvrtcCallEvents (compileFileToCUBIN env0 (some "f.cu") ["app"] 0).1 ++ rest =
        fullNvrtcSeq env0 "f.cu" opts ∧ rest = [] := by
  obtain ⟨⟨opts, rest, hA, hret⟩, -⟩ :=
    nvrtc_calls_in_fixed_order env0 "f.cu" ["app"] 0
  exact ⟨opts, rest, hA, hret ⟨[1, 2, 3], 3⟩ (by decide)⟩

/-- Helper: the options of any `nvrtcCompileProgram` call in a
`compileFileToCUBIN` trace are exactly what `buildCompileParams` produced,
and the count passed is their number. -/
theorem compile_event_params (env : Env) (fname : String) (argv : List String)
    (flag : Nat) (n : Nat) (opts : List String)
    (hmem : Event.nvrtcCompileProgram n opts ∈
      (compileFileToCUBIN env (some fname) argv flag).1) :
    n = opts.length ∧
    buildCompileParams env argv (env.ccMajor (env.findCudaDeviceDRV argv))
      (env.ccMinor (env.findCudaDeviceDRV argv)) flag = .returned opts := by
  obtain ⟨ps, rest, hA, hps, -⟩ := compile_trace_structure env fname argv flag
  have hfull : Event.nvrtcCompileProgram n opts ∈ fullCompileTrace env fname argv ps := by
    rw [← hA]
    exact List.mem_append_left rest hmem
  have heq : n = ps.length ∧ opts = ps := by
    by_cases hpr : 2 ≤ cstrlen (logBuffer env) <;>
      simp [fullCompileTrace, hpr] at hfull <;> exact hfull
  obtain ⟨hn, hopts⟩ := heq
  subst hopts
  subst hn
  exact ⟨rfl, hps hmem⟩

/-- Helper: a nonempty `strTake`. -/
theorem strTake_ne_empty (s : String) (n : Nat) (hs : s ≠ "") (hn : n ≠ 0) :
    strTake s n ≠ "" := by
  intro hc
  have hl : (strTake s n).toList = [] := by rw [hc]; rfl
  unfold strTake at hl
  rw [show ((s.toList.take n).asString).toList = s.toList.take n from rfl] at hl
  rcases List.take_eq_nil_iff.mp hl with h | h
  · exact hn h
  · exact hs ((toList_eq_nil_iff s).mp h)

/-- Helper: the `snprintf` with an undersized buffer still yields a string of
the shape `--include-path=<..>` as long as the directory part is nonempty. -/
theorem snprintf_include_path_shape (dir : String) (hdl : dir ≠ "") :
    ∃ d, snprintfOut (strLength ("--include-path=" ++ dir))
          ("--include-path=" ++ dir) = "--include-path=" ++ d := by
  have hpos : 1 ≤ dir.toList.length := by
    rcases Nat.eq_zero_or_pos dir.toList.length with h | h
    · exact absurd ((toList_eq_nil_iff dir).mp (List.length_eq_zero.mp h)) hdl
    · exact h
  refine ⟨(dir.toList.take (dir.toList.length - 1)).asString, ?_⟩
  unfold snprintfOut strTake
  rw [show ("--include-path=" ++ dir).toList =
    "--include-path=".toList ++ dir.toList from rfl]
  have hlen : strLength ("--include-path=" ++ dir) - 1 = 14 + dir.toList.length := by
    rw [strLength_append]
    have h15 : strLength "--include-path=" = 15 := by decide
    rw [h15]
    unfold strLength
    omega
  rw [hlen, List.take_append_eq_append_take]
  have h15 : ("--include-path=".toList).length = 15 := by decide
  rw [List.take_of_length_le (by omega : ("--include-path=".toList).length ≤
    14 + dir.toList.length)]
  have harith : 14 + dir.toList.length - ("--include-path=".toList).length =
      dir.toList.length - 1 := by omega
  rw [harith, asString_append]
  rfl

/-- Helper: dropping the final character shortens a nonempty string by one. -/
theorem strLength_snprintf_short (s : String) (h : 1 ≤ strLength s) :
    strLength (snprintfOut (strLength s) s) + 1 = strLength s := by
  unfold snprintfOut strTake strLength at *
  rw [show ((s.toList.take (s.toList.length - 1)).asString).toList =
    s.toList.take (s.toList.length - 1) from rfl]
  rw [List.length_take]
  omega

/-- Claim C3: the first (and always present) compile option passed to the
compiler library is `--gpu-architecture=sm_` followed by the decimal digits
of the compute-capability major number of the selected device and then its minor
number (for the realistic range where both numbers fit the 32-byte
`snprintf` buffer). -/
theorem first_option_is_arch_flag (env : Env) (fname : String)
    (argv : List String) (flag : Nat) (n : Nat) (opts : List String)
    (hmaj : env.ccMajor (env.findCudaDeviceDRV argv) ≤ 99)
    (hmin : env.ccMinor (env.findCudaDeviceDRV argv) ≤ 99)
    (hmem : Event.nvrtcCompileProgram n opts ∈
      (compileFileToCUBIN env (some fname) argv flag).1) :
    opts.head? = some ("--gpu-architecture=sm_"
      ++ Nat.repr (env.ccMajor (env.findCudaDeviceDRV argv))
      ++ Nat.repr (env.ccMinor (env.findCudaDeviceDRV argv))) := by
  obtain ⟨-, hbp⟩ := compile_event_params env fname argv flag n opts hmem
  rcases buildCompileParams_inv env argv _ _ flag opts hbp with ⟨-, hps⟩ | ⟨-, p, -, hps⟩ <;>
    subst hps <;>
    simp [archFlag_eq _ _ hmaj hmin]

/-- Witness for claim C3 at a concrete environment (device 0, capability 8.6). -/
theorem first_option_is_arch_flag_witness :
    env0.ccMajor (env0.findCudaDeviceDRV ["app"]) ≤ 99 ∧
    (["--gpu-architecture=sm_86"] : List String).head? =
      some ("--gpu-architecture=sm_"
        ++ Nat.repr (env0.ccMajor (env0.findCudaDeviceDRV ["app"]))
        ++ Nat.repr (env0.ccMinor (env0.findCudaDeviceDRV ["app"]))) :=
  ⟨by decide, first_option_is_arch_flag env0 "f.cu" ["app"] 0 1
    ["--gpu-architecture=sm_86"] (by decide) (by decide) (by decide)⟩

/-- Claim C7: the number of compile options passed to the compiler is exactly 1
(the architecture flag) when `requiresCGheaders` is zero and exactly 2 (the
architecture flag plus one `--include-path=` option) when it is nonzero. -/
theorem compile_option_count (env : Env) (fname : String) (argv : List String)
    (flag : Nat) (n : Nat) (opts : List String)
    (hcg : cgPathOk (env.sdkFindFilePath "cooperative_groups.h" (argvZero argv)) = true)
    (hmem : Event.nvrtcCompileProgram n opts ∈
      (compileFileToCUBIN env (some fname) argv flag).1) :
    n = opts.length ∧
    (flag = 0 → opts = [archFlag (env.ccMajor (env.findCudaDeviceDRV argv))
      (env.ccMinor (env.findCudaDeviceDRV argv))]) ∧
    (flag ≠ 0 → ∃ d, opts = [archFlag (env.ccMajor (env.findCudaDeviceDRV argv))
      (env.ccMinor (env.findCudaDeviceDRV argv)), "--include-path=" ++ d]) := by
  obtain ⟨hn, hbp⟩ := compile_event_params env fname argv flag n opts hmem
  refine ⟨hn, ?_, ?_⟩
  · intro hf
    rcases buildCompileParams_inv env argv _ _ flag opts hbp with ⟨-, hps⟩ | ⟨hf', -⟩
    · exact hps
    · exact absurd hf hf'
  · intro hf
    rcases buildCompileParams_inv env argv _ _ flag opts hbp with ⟨hf0, -⟩ | ⟨-, p, hcgp, hps⟩
    · exact absurd hf0 hf
    · obtain ⟨path, found, hsp, hne, hfound, hp⟩ := buildCGOption_inv env _ p hcgp
      rw [hsp] at hcg
      have hfz : found ≠ 0 := by
        intro hc
        subst hc
        simp [cgPathOk, hfound] at hcg
      have hdir : strTake path found ≠ "" := strTake_ne_empty path found hne hfz
      obtain ⟨d, hd⟩ := snprintf_include_path_shape (strTake path found) hdir
      exact ⟨d, by rw [hps, hp, hd]⟩

/-- Witness for claim C7 at a concrete environment with the header-path flag
set: exactly two options, the second of `--include-path=` shape. -/
theorem compile_option_count_witness :
    ∃ d, (["--gpu-architecture=sm_86", "--include-path=inc"] : List String) =
      [archFlag (env0.ccMajor (env0.findCudaDeviceDRV ["app"]))
        (env0.ccMinor (env0.findCudaDeviceDRV ["app"])), "--include-path=" ++ d] :=
  (compile_option_count env0 "f.cu" ["app"] 1 2
    ["--gpu-architecture=sm_86", "--include-path=inc"]
    (by decide) (by decide)).2.2 (by decide)

/-- Claim C8: on non-Windows builds, when `requiresCGheaders` is nonzero, the
include-path option actually handed to the compiler is the intended string
`--include-path=<directory>` with its final character dropped, because the
`snprintf` call is given the length of the string (not length plus one) as the
buffer size. -/
theorem include_path_option_truncated (env : Env) (fname : String)
    (argv : List String) (flag : Nat) (n : Nat) (opts : List String)
    (path : String) (found : Nat)
    (hflag : flag ≠ 0)
    (hsp : env.sdkFindFilePath "cooperative_groups.h" (argvZero argv) = some path)
    (hfound : strFind path "cooperative_groups.h" = some found)
    (hmem : Event.nvrtcCompileProgram n opts ∈
      (compileFileToCUBIN env (some fname) argv flag).1) :
    opts[1]? = some (snprintfOut
      (strLength ("--include-path=" ++ strTake path found))
      ("--include-path=" ++ strTake path found)) ∧
    strLength (snprintfOut
      (strLength ("--include-path=" ++ strTake path found))
      ("--include-path=" ++ strTake path found)) + 1 =
      strLength ("--include-path=" ++ strTake path found) := by
  obtain ⟨-, hbp⟩ := compile_event_params env fname argv flag n opts hmem
  rcases buildCompileParams_inv env argv _ _ flag opts hbp with ⟨hf0, -⟩ | ⟨-, p, hcgp, hps⟩
  · exact absurd hf0 hflag
  · obtain ⟨path', found', hsp', hne', hfound', hp⟩ := buildCGOption_inv env _ p hcgp
    rw [hsp] at hsp'
    have hpath : path' = path := (Option.some.injEq _ _).mp hsp'.symm
    subst hpath
    rw [hfound] at hfound'
    have hfnd : found' = found := (Option.some.injEq _ _).mp hfound'.symm
    subst hfnd
    constructor
    · rw [hps, hp]
      rfl
    · apply strLength_snprintf_short
      rw [strLength_append]
      have h15 : strLength "--include-path=" = 15 := by decide
      omega

/-- Witness for claim C8: at a concrete environment, the option handed to the
compiler is `--include-path=inc`, the intended `--include-path=inc/` minus
its final character. -/
theorem include_path_option_truncated_witness :
    (["--gpu-architecture=sm_86", "--include-path=inc"] : List String)[1]? =
      some (snprintfOut
        (strLength ("--include-path=" ++ strTake "inc/cooperative_groups.h" 4))
        ("--include-path=" ++ strTake "inc/cooperative_groups.h" 4)) ∧
    strLength (snprintfOut
      (strLength ("--include-path=" ++ strTake "inc/cooperative_groups.h" 4))
      ("--include-path=" ++ strTake "inc/cooperative_groups.h" 4)) + 1 =
      strLength ("--include-path=" ++ strTake "inc/cooperative_groups.h" 4) :=
  include_path_option_truncated env0 "f.cu" ["app"] 1 2
    ["--gpu-architecture=sm_86", "--include-path=inc"]
    "inc/cooperative_groups.h" 4 (by decide) (by decide) (by decide) (by decide)

/-- Helper: with `requiresCGheaders = 0` the option list is always just the
architecture flag, independently of `argv`. -/
theorem buildCompileParams_flag0 (env : Env) (argv : List String) (major minor : Nat) :
    buildCompileParams env argv major minor 0 = .returned [archFlag major minor] := rfl

/-- Helper: `buildCompileParams` depends on `argv` only through `argv[0]`. -/
theorem buildCompileParams_argv_congr (env : Env) (argv1 argv2 : List String)
    (major minor flag : Nat) (h : argvZero argv1 = argvZero argv2) :
    buildCompileParams env argv1 major minor flag =
      buildCompileParams env argv2 major minor flag := by
  unfold buildCompileParams
  rw [h]

/-- Claim C4 (amended): the argument list influences `loadCUBIN` only through
device selection, and influences `compileFileToCUBIN` only through device
selection when `requiresCGheaders` is zero; when `requiresCGheaders` is
nonzero, `argv[0]` additionally determines the header search path, so
argument lists selecting the same device must also agree on `argv[0]` for the
behaviour to coincide. -/
theorem argv_influence (env : Env) (filename : Option String)
    (argv1 argv2 : List String) (cubin : Bytes)
    (hdev : env.findCudaDeviceDRV argv1 = env.findCudaDeviceDRV argv2) :
    compileFileToCUBIN env filename argv1 0 = compileFileToCUBIN env filename argv2 0 ∧
    loadCUBIN env cubin argv1 = loadCUBIN env cubin argv2 ∧
    (∀ flag, argvZero argv1 = argvZero argv2 →
      compileFileToCUBIN env filename argv1 flag =
        compileFileToCUBIN env filename argv2 flag) := by
  refine ⟨?_, ?_, ?_⟩
  · cases filename with
    | none => rfl
    | some fname =>
      simp only [compileFileToCUBIN, hdev, buildCompileParams_flag0]
  · simp only [loadCUBIN, hdev]
  · intro flag hzero
    cases filename with
    | none => rfl
    | some fname =>
      simp only [compileFileToCUBIN, hdev,
        buildCompileParams_argv_congr env argv1 argv2 _ _ flag hzero]

/-- Witness for claim C4 (amended) at concrete argument lists that select the
same device. -/
theorem argv_influence_witness :
    compileFileToCUBIN env0 (some "f.cu") ["app", "x"] 0 =
      compileFileToCUBIN env0 (some "f.cu") ["app", "y"] 0 :=
  (argv_influence env0 (some "f.cu") ["app", "x"] ["app", "y"] [] rfl).1

/-- Claim C4 counterexample: with `requiresCGheaders` nonzero, two argument
lists that select the same CUDA device but differ in `argv[0]` make
`compileFileToCUBIN` build different compile parameters (different header
search paths), refuting that the argument list is used only for device
selection. -/
theorem argv_not_only_device_selection :
    envArgvDep.findCudaDeviceDRV ["appA"] = envArgvDep.findCudaDeviceDRV ["appB"] ∧
    compileFileToCUBIN envArgvDep (some "f.cu") ["appA"] 1 ≠
      compileFileToCUBIN envArgvDep (some "f.cu") ["appB"] 1 := by
  exact ⟨rfl, by decide⟩

/-- Claim C6: `loadCUBIN` performs exactly the sequence select device, query
capabilities and name, print them, initialize the driver, create a context on
the device, hand the binary to the module loader, free the binary exactly
once after the load, and return the module handle from the driver; the free happens
if and only if the load path succeeded. -/
theorem loadCUBIN_sequence (env : Env) (cubin : Bytes) (argv : List String) :
    (∀ mod, (loadCUBIN env cubin argv).2 = .returned mod →
      (loadCUBIN env cubin argv).1 = loadSuccessTrace env cubin argv ∧
      mod = env.moduleHandle) ∧
    List.count Event.freeCubin (loadSuccessTrace env cubin argv) = 1 ∧
    (Event.freeCubin ∈ (loadCUBIN env cubin argv).1 ↔
      ∃ mod, (loadCUBIN env cubin argv).2 = .returned mod) := by
  refine ⟨?_, rfl, ?_⟩
  · by_cases h1 : env.attrMajorRes = 0 <;>
    by_cases h2 : env.attrMinorRes = 0 <;>
    by_cases h3 : env.getNameRes = 0 <;>
    by_cases h4 : env.cuInitRes = 0 <;>
    by_cases h5 : env.ctxCreateRes = 0 <;>
    by_cases h6 : env.moduleLoadRes = 0 <;>
    simp [loadCUBIN, loadSuccessTrace, h1, h2, h3, h4, h5, h6]
  · by_cases h1 : env.attrMajorRes = 0 <;>
    by_cases h2 : env.attrMinorRes = 0 <;>
    by_cases h3 : env.getNameRes = 0 <;>
    by_cases h4 : env.cuInitRes = 0 <;>
    by_cases h5 : env.ctxCreateRes = 0 <;>
    by_cases h6 : env.moduleLoadRes = 0 <;>
    simp [loadCUBIN, loadSuccessTrace, h1, h2, h3, h4, h5, h6]

/-- Witness for claim C6 at a concrete successful environment. -/
theorem loadCUBIN_sequence_witness :
    (loadCUBIN env0 [1, 2, 3] ["app"]).1 = loadSuccessTrace env0 [1, 2, 3] ["app"] ∧
    (42 : Nat) = env0.moduleHandle :=
  (loadCUBIN_sequence env0 [1, 2, 3] ["app"]).1 42 (by decide)

/-- Claim C10: once control reaches the log-dumping stage, the compilation log
is fetched (and printed to standard error exactly when its `strlen` is at
least 2) regardless of whether compilation succeeded, and only afterwards is
the compile result checked, a failed compile then terminating the process
with the `nvrtcCompileProgram` diagnostic. -/
theorem log_dumped_before_compile_check (env : Env) (fname : String)
    (argv : List String) (flag : Nat) (ps : List String)
    (h1 : env.fileOpens fname = true)
    (h2 : env.attrMajorRes = 0) (h3 : env.attrMinorRes = 0)
    (hp : buildCompileParams env argv (env.ccMajor (env.findCudaDeviceDRV argv))
      (env.ccMinor (env.findCudaDeviceDRV argv)) flag = .returned ps)
    (h4 : env.createProgramRes = 0) (h5 : env.getLogSizeRes = 0)
    (h6 : env.getLogRes = 0) :
    Event.nvrtcGetProgramLog ∈ (compileFileToCUBIN env (some fname) argv flag).1 ∧
    (Event.stderrLog (logBuffer env) ∈ (compileFileToCUBIN env (some fname) argv flag).1 ↔
      2 ≤ cstrlen (logBuffer env)) ∧
    (env.compileRes ≠ 0 →
      (compileFileToCUBIN env (some fname) argv flag).2 =
        .exited (nvrtcFailMsg env "nvrtcCompileProgram" env.compileRes)) := by
  by_cases h7 : env.compileRes = 0 <;>
  by_cases hpr : 2 ≤ cstrlen (logBuffer env) <;>
  by_cases h8 : env.getCUBINSizeRes = 0 <;>
  by_cases h9 : env.getCUBINRes = 0 <;>
  simp [compileFileToCUBIN, h1, h2, h3, hp, h4, h5, h6, h7, hpr, h8, h9]

/-- Witness for claim C10 at a concrete environment with a failing compile: the
log was fetched, and the process then terminated with the compile
diagnostic. -/
theorem log_dumped_before_compile_check_witness :
    Event.nvrtcGetProgramLog ∈ (compileFileToCUBIN envLogFail (some "f.cu") ["app"] 0).1 ∧
    (compileFileToCUBIN envLogFail (some "f.cu") ["app"] 0).2 =
      .exited (nvrtcFailMsg envLogFail "nvrtcCompileProgram" envLogFail.compileRes) := by
  have h := log_dumped_before_compile_check envLogFail "f.cu" ["app"] 0
    ["--gpu-architecture=sm_86"] (by decide) rfl rfl (by decide) rfl rfl rfl
  exact ⟨h.1, h.2.2 (by decide)⟩

/-- Helper: inversion of a normal return of `loadCUBIN`. -/
theorem load_returned_inv (env : Env) (cubin : Bytes) (argv : List String)
    (mod : Nat) (h : (loadCUBIN env cubin argv).2 = .returned mod) :
    loadChecksOk env := by
  by_cases h1 : env.attrMajorRes = 0
  · by_cases h2 : env.attrMinorRes = 0
    · by_cases h3 : env.getNameRes = 0
      · by_cases h4 : env.cuInitRes = 0
        · by_cases h5 : env.ctxCreateRes = 0
          · by_cases h6 : env.moduleLoadRes = 0
            · exact ⟨h1, h2, h3, h4, h5, h6⟩
            · simp [loadCUBIN, h1, h2, h3, h4, h5, h6] at h
          · simp [loadCUBIN, h1, h2, h3, h4, h5] at h
        · simp [loadCUBIN, h1, h2, h3, h4] at h
      · simp [loadCUBIN, h1, h2, h3] at h
    · simp [loadCUBIN, h1, h2] at h
  · simp [loadCUBIN, h1] at h

/-- Helper: when `buildCompileParams` terminates the process, the diagnostic
comes from the header-path lookup. -/
theorem buildCompileParams_exited_inv (env : Env) (argv : List String)
    (major minor flag : Nat) (m : String)
    (h : buildCompileParams env argv major minor flag = .exited m) :
    buildCGOption env (argvZero argv) = .exited m := by
  unfold buildCompileParams at h
  by_cases hf : flag = 0
  · rw [if_pos hf] at h
    simp at h
  · rw [if_neg hf] at h
    rcases hg : buildCGOption env (argvZero argv) with m' | p
    · simp only [hg] at h
      cases h
      rfl
    · simp only [hg] at h
      simp at h

/-- Helper: every diagnostic printed by the header-path lookup is nonempty. -/
theorem buildCGOption_exited_ne_empty (env : Env) (a0 m : String)
    (h : buildCGOption env a0 = .exited m) : m ≠ "" := by
  have hh : snprintfOut 256 "cooperative_groups.h" = "cooperative_groups.h" := by decide
  unfold buildCGOption at h
  rw [hh] at h
  rcases hsp : env.sdkFindFilePath "cooperative_groups.h" a0 with _ | path
  · simp only [hsp] at h
    cases h
    apply append_ne_empty_left
    apply append_ne_empty_left
    decide
  · simp only [hsp] at h
    by_cases he : path = ""
    · rw [if_pos he] at h
      cases h
      apply append_ne_empty_left
      apply append_ne_empty_left
      decide
    · rw [if_neg he] at h
      rcases hf : strFind path "cooperative_groups.h" with _ | found
      · simp only [hf] at h
        cases h
        decide
      · simp only [hf] at h
        simp at h

/-- Helper: every diagnostic `compileFileToCUBIN` prints before terminating
is nonempty. -/
theorem compile_exited_ne_empty (env : Env) (filename : Option String)
    (argv : List String) (flag : Nat) (msg : String)
    (h : (compileFileToCUBIN env filename argv flag).2 = .exited msg) :
    msg ≠ "" := by
  cases filename with
  | none =>
    simp [compileFileToCUBIN] at h
    subst h
    decide
  | some fname =>
    by_cases h1 : env.fileOpens fname = true
    · by_cases h2 : env.attrMajorRes = 0
      · by_cases h3 : env.attrMinorRes = 0
        · rcases hp : buildCompileParams env argv
              (env.ccMajor (env.findCudaDeviceDRV argv))
              (env.ccMinor (env.findCudaDeviceDRV argv)) flag with m | ps
          · simp [compileFileToCUBIN, h1, h2, h3, hp] at h
            subst h
            exact buildCGOption_exited_ne_empty env (argvZero argv) m
              (buildCompileParams_exited_inv env argv _ _ flag m hp)
          · by_cases h4 : env.createProgramRes = 0
            · by_cases h5 : env.getLogSizeRes = 0
              · by_cases h6 : env.getLogRes = 0
                · by_cases h7 : env.compileRes = 0
                  · by_cases h8 : env.getCUBINSizeRes = 0
                    · by_cases h9 : env.getCUBINRes = 0
                      · simp [compileFileToCUBIN, h1, h2, h3, hp, h4, h5, h6, h7,
                          h8, h9] at h
                      · simp [compileFileToCUBIN, h1, h2, h3, hp, h4, h5, h6, h7,
                          h8, h9] at h
                        subst h
                        exact nvrtcFailMsg_ne_empty env "nvrtcGetCUBIN" env.getCUBINRes
                    · simp [compileFileToCUBIN, h1, h2, h3, hp, h4, h5, h6, h7,
                        h8] at h
                      subst h
                      exact nvrtcFailMsg_ne_empty env "nvrtcGetCUBINSize" env.getCUBINSizeRes
                  · simp [compileFileToCUBIN, h1, h2, h3, hp, h4, h5, h6, h7] at h
                    subst h
                    exact nvrtcFailMsg_ne_empty env "nvrtcCompileProgram" env.compileRes
                · simp [compileFileToCUBIN, h1, h2, h3, hp, h4, h5, h6] at h
                  subst h
                  exact nvrtcFailMsg_ne_empty env "nvrtcGetProgramLog" env.getLogRes
              · simp [compileFileToCUBIN, h1, h2, h3, hp, h4, h5] at h
                subst h
                exact nvrtcFailMsg_ne_empty env "nvrtcGetProgramLogSize" env.getLogSizeRes
            · simp [compileFileToCUBIN, h1, h2, h3, hp, h4] at h
              subst h
              exact nvrtcFailMsg_ne_empty env "nvrtcCreateProgram" env.createProgramRes
        · simp [compileFileToCUBIN, h1, h2, h3] at h
          subst h
          exact cudaFailMsg_ne_empty env.attrMinorRes
      · simp [compileFileToCUBIN, h1, h2] at h
        subst h
        exact cudaFailMsg_ne_empty env.attrMajorRes
    · simp [compileFileToCUBIN, h1] at h
      subst h
      apply append_ne_empty_left
      apply append_ne_empty_left
      decide

/-- Helper: every diagnostic `loadCUBIN` prints before terminating is
nonempty. -/
theorem load_exited_ne_empty (env : Env) (cubin : Bytes) (argv : List String)
    (msg : String) (h : (loadCUBIN env cubin argv).2 = .exited msg) : msg ≠ "" := by
  by_cases h1 : env.attrMajorRes = 0
  · by_cases h2 : env.attrMinorRes = 0
    · by_cases h3 : env.getNameRes = 0
      · by_cases h4 : env.cuInitRes = 0
        · by_cases h5 : env.ctxCreateRes = 0
          · by_cases h6 : env.moduleLoadRes = 0
            · simp [loadCUBIN, h1, h2, h3, h4, h5, h6] at h
            · simp [loadCUBIN, h1, h2, h3, h4, h5, h6] at h
              subst h
              exact cudaFailMsg_ne_empty env.moduleLoadRes
          · simp [loadCUBIN, h1, h2, h3, h4, h5] at h
            subst h
            exact cudaFailMsg_ne_empty env.ctxCreateRes
        · simp [loadCUBIN, h1, h2, h3, h4] at h
          subst h
          exact cudaFailMsg_ne_empty env.cuInitRes
      · simp [loadCUBIN, h1, h2, h3] at h
        subst h
        exact cudaFailMsg_ne_empty env.getNameRes
    · simp [loadCUBIN, h1, h2] at h
      subst h
      exact cudaFailMsg_ne_empty env.attrMinorRes
  · simp [loadCUBIN, h1] at h
    subst h
    exact cudaFailMsg_ne_empty env.attrMajorRes

/-- Claim C1 counterexample: when `nvrtcCompileProgram` returns a non-success
result, `compileFileToCUBIN` does continue past that failed call — the trace
goes on to the log-size query, the log fetch and the log print after the
compile call — and only afterwards terminates.  This refutes the assertion of the claim that the function never continues past a failed call. -/
theorem continues_past_failed_compile_call :
    envCompileFail.compileRes ≠ 0 ∧
    (compileFileToCUBIN envCompileFail (some "f.cu") ["app"] 0).1 =
      [.findDevice 0, .getAttribute ccMajorAttr 0, .getAttribute ccMinorAttr 0,
       .nvrtcCreateProgram [107, 10, 0] "f.cu",
       .nvrtcCompileProgram 1 ["--gpu-architecture=sm_86"],
       .nvrtcGetProgramLogSize, .nvrtcGetProgramLog,
       .stderrLog [104, 105, 33, 10, 0, 0]] ∧
    (compileFileToCUBIN envCompileFail (some "f.cu") ["app"] 0).2 =
      .exited (nvrtcFailMsg envCompileFail "nvrtcCompileProgram" 6) :=
  ⟨by decide, by decide, by decide⟩

/-- Claim C1 (amended): every failure encountered by `compileFileToCUBIN` or
`loadCUBIN` (a null filename, a file that cannot be opened, any checked
compiler-library or driver-library call failing) makes the process print a
nonempty diagnostic and terminate; neither function ever returns an error
value to its caller — a normal return implies every checked call succeeded.
The one deviation from the claim as stated: the result of the compile call is
checked only after the log has been fetched and printed, so execution does
continue past a failed `nvrtcCompileProgram` call until the log is dumped. -/
theorem failures_print_and_terminate (env : Env) (filename : Option String)
    (argv : List String) (flag : Nat) (cubin : Bytes) :
    (∀ msg, (compileFileToCUBIN env filename argv flag).2 = .exited msg → msg ≠ "") ∧
    (∀ out, (compileFileToCUBIN env filename argv flag).2 = .returned out →
      compileChecksOk env) ∧
    (∀ msg, (loadCUBIN env cubin argv).2 = .exited msg → msg ≠ "") ∧
    (∀ mod, (loadCUBIN env cubin argv).2 = .returned mod → loadChecksOk env) :=
  ⟨fun msg h => compile_exited_ne_empty env filename argv flag msg h,
   fun out h => (compile_returned_inv env filename argv flag out h).2.1,
   fun msg h => load_exited_ne_empty env cubin argv msg h,
   fun mod h => load_returned_inv env cubin argv mod h⟩

/-- Witness for claim C1 (amended): at a concrete environment with a failing
`nvrtcCreateProgram`, the diagnostic the process prints is nonempty. -/
theorem failures_print_and_terminate_witness :
    nvrtcFailMsg envCreateFail "nvrtcCreateProgram" 1 ≠ "" :=
  (failures_print_and_terminate envCreateFail (some "f.cu") ["app"] 0 []).1
    (nvrtcFailMsg envCreateFail "nvrtcCreateProgram" 1) (by decide)

